import Mathlib

/-!
Verification of the anysync repository's synchronization engine against its
natural-language specification.

The development shallowly embeds the relevant Python code:

* `Anytask._normalize`, `Anytask._load_tasks` (anysync.py) — the task
  hierarchy normalizer, embedded as `normalize` / `load_tasks` with an
  explicit recursion-depth fuel (Python's call stack bound) and `Except`
  results standing for uncaught Python exceptions (`PyErr.keyError`,
  `PyErr.recursionError`, `PyErr.attributeError`).
* `_AnytaskParser._linearize_tasks`, `_AnytaskParser._filter_students`
  (anytask.py) — embedded as `linearize` and `filter_students`.
* `Anytask._parse` (anysync.py) — embedded as `parseCourses` with an explicit
  allocation arena for `AnytaskTask` entities, and a `PyKey` sum type so that
  the dynamically-typed membership test `task_name not in self._tasks`
  (a string tested against tuple keys) is rendered faithfully.
* `AnytaskSynchronizer` (anysync.py) — `syncStep`/`syncSolution`/`syncList`,
  `filterSolutions`, `is_updated`, with filesystem/subprocess/console effects
  supplied by environment oracles.

Python dicts are embedded as insertion-ordered association lists (`upsert`
keeps the original key position, as dict assignment does); `os.path.join` is
embedded as the two-argument POSIX `posixJoin`; `str.strip` as the structural
`pyStrip` (so that concrete runs reduce inside the kernel).
-/

namespace Anysync

/-- Uncaught Python exceptions relevant to the embedded code. -/
inductive PyErr where
  | keyError : PyErr
  | recursionError : PyErr
  | attributeError : PyErr
deriving DecidableEq, Repr

/-- Python `str.strip()`: drop leading and trailing whitespace.  Written with
structural list recursion so that the kernel can evaluate it on literals. -/
def pyStrip (s : String) : String :=
  ⟨((s.data.dropWhile Char.isWhitespace).reverse.dropWhile Char.isWhitespace).reverse⟩

/-- Two-argument `os.path.join` with the POSIX separator. -/
def posixJoin (a b : String) : String :=
  if b.startsWith "/" then b
  else if a = "" ∨ a.endsWith "/" then a ++ b
  else a ++ "/" ++ b

/-- Python dict assignment `d[k] = v`: replace the value at an existing key in
place, otherwise append the new binding (insertion order preserved). -/
def upsert {κ α : Type} [DecidableEq κ] : List (κ × α) → κ → α → List (κ × α)
  | [], k, v => [(k, v)]
  | (k', v') :: rest, k, v =>
    if k' = k then (k, v) :: rest else (k', v') :: upsert rest k v

/-- Python dict lookup `d[k]` / `d.get(k)`. -/
def alookup {κ α : Type} [DecidableEq κ] : List (κ × α) → κ → Option α
  | [], _ => none
  | (k', v') :: rest, k => if k' = k then some v' else alookup rest k

/-- Python dict deletion `del d[k]` (configparser `remove_option`). -/
def removeKey {κ α : Type} [DecidableEq κ] : List (κ × α) → κ → List (κ × α)
  | [], _ => []
  | (k', v') :: rest, k => if k' = k then rest else (k', v') :: removeKey rest k

theorem alookup_upsert {κ α : Type} [DecidableEq κ] (m : List (κ × α)) (k : κ) (v : α) :
    alookup (upsert m k v) k = some v := by
  induction m with
  | nil => simp [upsert, alookup]
  | cons kv rest ih =>
    by_cases h : kv.1 = k
    · simp [upsert, alookup, h]
    · simp [upsert, alookup, h, ih]

/-! ## Task hierarchy normalizer (anysync.py, `Anytask._normalize`)

`_normalize(task, tasks)` receives a `(parent_task_id, title)` pair and the
id-indexed dict of all such pairs, and recurses into the parent.  The Python
source has no memoization, no visited set and no guard on the dict lookup
`tasks[task[0]]`; the fuel parameter models the Python call stack
(`RecursionError` once exhausted), and a missing parent id models the uncaught
`KeyError`. -/

/-- `Anytask._normalize`: fuel-indexed embedding of the recursive qualified
name computation.  `.error .recursionError` means the recursion exceeded the
given depth; `.error .keyError` means the parent id was not a key of `tasks`. -/
def normalize (info : Nat → Option (Option Nat × String)) :
    Nat → Option Nat × String → Except PyErr String
  | 0, _ => .error .recursionError
  | _ + 1, (none, t) => .ok (pyStrip t)
  | fuel + 1, (some p, t) =>
    match info p with
    | none => .error .keyError
    | some pt =>
      match normalize info fuel pt with
      | .error e => .error e
      | .ok s => .ok (posixJoin s (pyStrip t))

/-- A parent chain that resolves: `Chain info task n` says that from `task`
the parent links all resolve and reach a root in exactly `n` steps.  Every
task of a finite hierarchy without cycles (and without dangling parent ids)
admits such an `n`. -/
inductive Chain (info : Nat → Option (Option Nat × String)) :
    Option Nat × String → Nat → Prop where
  | root (t : String) : Chain info (none, t) 0
  | step (p : Nat) (t : String) (pt : Option Nat × String) (n : Nat) :
      info p = some pt → Chain info pt n → Chain info (some p, t) (n + 1)

theorem normalize_mono (info : Nat → Option (Option Nat × String)) :
    ∀ fuel task s, normalize info fuel task = .ok s →
      normalize info (fuel + 1) task = .ok s := by
  intro fuel
  induction fuel with
  | zero => intro task s h; simp [normalize] at h
  | succ n ih =>
    intro task s h
    match task with
    | (none, t) => simpa [normalize] using h
    | (some p, t) =>
      simp only [normalize] at h ⊢
      cases hp : info p with
      | none => simp [hp] at h
      | some pt =>
        simp only [hp] at h ⊢
        cases hn : normalize info n pt with
        | error e => simp [hn] at h
        | ok s' => rw [ih pt s' hn]; simpa [hn] using h

theorem normalize_mono_le (info : Nat → Option (Option Nat × String))
    {fuel fuel' : Nat} (hle : fuel ≤ fuel') :
    ∀ task s, normalize info fuel task = .ok s →
      normalize info fuel' task = .ok s := by
  induction hle with
  | refl => intro task s h; exact h
  | step _ ih => intro task s h; exact normalize_mono info _ task s (ih task s h)

theorem chain_normalize_ok (info : Nat → Option (Option Nat × String))
    {task : Option Nat × String} {n : Nat} (hc : Chain info task n) :
    ∃ s, normalize info (n + 1) task = .ok s := by
  induction hc with
  | root t => exact ⟨pyStrip t, rfl⟩
  | step p t pt m hp _ ih =>
    obtain ⟨s, hs⟩ := ih
    exact ⟨posixJoin s (pyStrip t), by simp [normalize, hp, hs]⟩

/-- Claim C1 (amended): for the recursive normalizer `Anytask._normalize` of
anysync.py, over any id → (parent, title) mapping — hence independently of the
order the raw tasks arrived in — a task whose parent chain resolves in `n`
steps gets, at any recursion budget above `n + 1`, the qualified name
`posixJoin (parent's qualified name) (trimmed title)` when it has a parent
(which is literally parent ++ "/" ++ trimmed title whenever the parent's name
is nonempty, does not end in the separator, and the trimmed title does not
start with it), and the trimmed title alone when its parent id is `none`.
The claim as frozen also asserts this of `_AnytaskParser._linearize_tasks` of
anytask.py, which violates it (see the counterexample). -/
theorem c1_qualified_name (info : Nat → Option (Option Nat × String))
    (p : Nat) (t : String) (pt : Option Nat × String) (n fuel : Nat)
    (hp : info p = some pt) (hc : Chain info pt n) (hf : n + 1 < fuel) :
    (∃ s, normalize info fuel pt = .ok s ∧
       normalize info fuel (some p, t) = .ok (posixJoin s (pyStrip t)) ∧
       (s ≠ "" → ¬ s.endsWith "/" → ¬ (pyStrip t).startsWith "/" →
         posixJoin s (pyStrip t) = s ++ "/" ++ pyStrip t)) ∧
    (∀ t' : String, normalize info fuel (none, t') = .ok (pyStrip t')) := by
  obtain ⟨s, hs⟩ := chain_normalize_ok info hc
  obtain ⟨m, rfl⟩ : ∃ m, fuel = m + 1 :=
    ⟨fuel - 1, by omega⟩
  have hm : n + 1 ≤ m := by omega
  have hsm : normalize info m pt = .ok s :=
    normalize_mono_le info (by omega) pt s hs
  refine ⟨⟨s, normalize_mono_le info (by omega) pt s hs, ?_, ?_⟩, fun t' => rfl⟩
  · simp [normalize, hp, hsm]
  · intro hne hsep hslash
    simp [posixJoin, hslash, hne, hsep]

/-- Mapping used by the C1 witness: a single root task #1 titled `" HW "`. -/
def infoHW : Nat → Option (Option Nat × String) :=
  fun i => if i = 1 then some (none, " HW ") else none

/-- Witness for C1 at a concrete input: task `" Task A "` under parent #1. -/
theorem c1_qualified_name_witness :
    infoHW 1 = some (none, " HW ") ∧ 0 + 1 < 3 ∧
    ((∃ s, normalize infoHW 3 (none, " HW ") = .ok s ∧
        normalize infoHW 3 (some 1, " Task A ") = .ok (posixJoin s (pyStrip " Task A ")) ∧
        (s ≠ "" → ¬ s.endsWith "/" → ¬ (pyStrip " Task A ").startsWith "/" →
          posixJoin s (pyStrip " Task A ") = s ++ "/" ++ pyStrip " Task A ")) ∧
     (∀ t' : String, normalize infoHW 3 (none, t') = .ok (pyStrip t'))) :=
  ⟨rfl, by omega,
    c1_qualified_name infoHW 1 " Task A " (none, " HW ") 0 3 rfl (Chain.root _) (by omega)⟩

/-! ## The anytask.py linearizer (`_AnytaskParser._linearize_tasks`)

It makes one pass recording `task_names[id] = (title,)` and an inverse index
parent → children (only for truthy parent ids), then one pass over the inverse
index doing `task_names[child] = task_names[parent] + task_names[child]`.
Titles are not trimmed and the result depends on the order tasks arrive in. -/

/-- A validated task record as fed to `_linearize_tasks`. -/
structure TaskT where
  id : Nat
  parent : Option Nat
  title : String
deriving DecidableEq, Repr

/-- Python truthiness of the `parent_task_id` value (`None` and `0` falsy). -/
def pyTruthyNat : Option Nat → Option Nat
  | some (k + 1) => some (k + 1)
  | _ => none

/-- `_AnytaskParser._linearize_tasks`: names are tuples (lists) of titles;
`task_names[parent]` can raise `KeyError` when a truthy parent id never
occurred as a task id. -/
def linearize (data : List TaskT) : Except PyErr (List (Nat × List String)) :=
  let built : List (Nat × List String) × List (Nat × List Nat) :=
    data.foldl
      (fun acc t =>
        (upsert acc.1 t.id [t.title],
         match pyTruthyNat t.parent with
         | some p => upsert acc.2 p ((alookup acc.2 p).getD [] ++ [t.id])
         | none => acc.2))
      ([], [])
  built.2.foldlM
    (fun names pc =>
      pc.2.foldlM
        (fun names child =>
          match alookup names pc.1, alookup names child with
          | some pn, some cn => Except.ok (upsert names child (pn ++ cn))
          | _, _ => Except.error PyErr.keyError)
        names)
    built.1

/-- Chain 1 ← 2 ← 3 presented in reverse (anti-topological) order. -/
def chainRev : List TaskT :=
  [⟨3, some 2, "c"⟩, ⟨2, some 1, "b"⟩, ⟨1, none, "a"⟩]

/-- Counterexample to claim C1 as frozen: on `_AnytaskParser._linearize_tasks`
the qualified name of task #3 is `["b", "c"]`, while its parent #2 resolves to
`["a", "b"]` — so the child's name is not the parent's name extended with the
child's title, and reordering the input changes the result (topological order
would give `["a", "b", "c"]`). -/
theorem c1_counterexample :
    (linearize chainRev).map (fun m => (alookup m 3, alookup m 2)) =
      Except.ok (some ["b", "c"], some ["a", "b"]) ∧
    (["b", "c"] : List String) ≠ ["a", "b"] ++ ["c"] :=
  ⟨rfl, by decide⟩

/-! ## Building the name map (anysync.py, `Anytask._load_tasks`) -/

/-- The `svn` sub-dict of a raw student record. -/
structure RawSvnA where
  svn_path : Option (Option String)
  rb_review_id : Option String
  svn_rev : Option String

/-- One raw student record of a task (anysync.py shape): `svn` key may be
absent, present-but-null, or a dict whose three fields may each be absent
(`svn_path` present may hold `null`). -/
structure RawStudentA where
  user_name : Option String
  username : Option String
  svn : Option (Option RawSvnA)

/-- One raw task record of a course answer, with key-presence made explicit
(`parent_task_id` present may still hold JSON `null`, hence
`Option (Option Nat)`). -/
structure RawTaskA where
  task_id : Option Nat
  parent_task_id : Option (Option Nat)
  title : Option String
  students : Option (List RawStudentA)

/-- `Anytask._load_tasks`' first loop: build `info : task_id → (parent, title)`
from all courses; a course without a `tasks` key and a task missing any of the
three fields are logged and skipped (the `KeyError` there is caught). -/
def buildInfo (courses : List (String × Option (List RawTaskA))) :
    List (Nat × (Option Nat × String)) :=
  courses.foldl
    (fun info ci =>
      match ci.2 with
      | none => info
      | some ts =>
        ts.foldl
          (fun info t =>
            match t.task_id, t.parent_task_id, t.title with
            | some i, some p, some ti => upsert info i (p, ti)
            | _, _, _ => info)
          info)
    []

/-- The dict comprehension of `_load_tasks`: normalize every id in insertion
order; the first uncaught exception aborts the whole build. -/
def namesOf (lookup : Nat → Option (Option Nat × String)) (fuel : Nat) :
    List (Nat × (Option Nat × String)) → Except PyErr (List (Nat × String))
  | [] => .ok []
  | (i, v) :: rest =>
    match normalize lookup fuel v with
    | .error e => .error e
    | .ok s =>
      match namesOf lookup fuel rest with
      | .error e => .error e
      | .ok l => .ok ((i, s) :: l)

/-- `Anytask._load_tasks`: the id → qualified-name map, or the uncaught
exception that escapes the build. -/
def load_tasks (fuel : Nat) (courses : List (String × Option (List RawTaskA))) :
    Except PyErr (List (Nat × String)) :=
  namesOf (alookup (buildInfo courses)) fuel (buildInfo courses)

/-- A single course whose two tasks form a parent cycle 1 ⇄ 2. -/
def cycCourses : List (String × Option (List RawTaskA)) :=
  [("1", some [⟨some 1, some (some 2), some "a", none⟩,
               ⟨some 2, some (some 1), some "b", none⟩])]

theorem buildInfo_cyc :
    buildInfo cycCourses = [(1, (some 2, "a")), (2, (some 1, "b"))] := rfl

theorem normalize_cyc (fuel : Nat) :
    (∀ t, normalize (alookup (buildInfo cycCourses)) fuel (some 1, t) =
        .error .recursionError) ∧
    (∀ t, normalize (alookup (buildInfo cycCourses)) fuel (some 2, t) =
        .error .recursionError) := by
  induction fuel with
  | zero => exact ⟨fun t => rfl, fun t => rfl⟩
  | succ n ih =>
    constructor
    · intro t
      have h2 := ih.2 "a"
      simp only [normalize]
      rw [show alookup (buildInfo cycCourses) 1 = some (some 2, "a") from rfl]
      simp [h2]
    · intro t
      have h1 := ih.1 "b"
      simp only [normalize]
      rw [show alookup (buildInfo cycCourses) 2 = some (some 1, "b") from rfl]
      simp [h1]

/-- Claim C2 (code bug): on a cyclic parent chain `Anytask._normalize` never
completes at any recursion budget — the embedded build of the name map ends in
the `RecursionError` of an exhausted call stack for every fuel value, i.e. the
Python code recurses without bound, and the uncaught exception escapes
`_load_tasks` and aborts the whole build instead of being reported as an error
for that course. -/
theorem c2_cycle_unbounded_recursion (fuel : Nat) :
    load_tasks fuel cycCourses = .error .recursionError := by
  have h := (normalize_cyc fuel).2 "a"
  rw [buildInfo_cyc] at h
  simp [load_tasks, buildInfo_cyc, namesOf, h]

/-- Witness for C2 at the recursion budget of the claim's depth bound. -/
theorem c2_cycle_unbounded_recursion_witness :
    load_tasks 1000 cycCourses = .error .recursionError :=
  c2_cycle_unbounded_recursion 1000

/-- A single course with one task whose parent id #2 is not a known task. -/
def danglingCourses : List (String × Option (List RawTaskA)) :=
  [("1", some [⟨some 1, some (some 2), some "t", none⟩])]

/-- Claim C3 (code bug): a task whose parent id resolves to no known task makes
`Anytask._normalize` look up a missing dict key; the `KeyError` is not caught
by `_load_tasks`, so the embedded build returns the uncaught exception (the
build crashes) instead of reporting a validation error for that task and
continuing. -/
theorem c3_dangling_parent_keyerror (fuel : Nat) :
    load_tasks (fuel + 1) danglingCourses = .error .keyError := by
  have hb : buildInfo danglingCourses = [(1, (some 2, "t"))] := rfl
  simp [load_tasks, hb, namesOf, normalize, alookup]

/-- Witness for C3 at a concrete recursion budget. -/
theorem c3_dangling_parent_keyerror_witness :
    load_tasks 1000 danglingCourses = .error .keyError :=
  c3_dangling_parent_keyerror 999

/-! ## Data model builder (anysync.py, `Anytask._parse`)

The builder allocates `AnytaskTask` entities into `self._tasks`, a dict keyed
by `(course, task_name)` tuples.  The guard before allocation is the literal
Python test `if task_name not in self._tasks:` — a *string* tested against
*tuple* keys.  `PyKey` renders both key shapes so the test can be embedded as
written.  Entities live in an allocation arena; a solution stores the index of
the entity it references, so entity identity (Python object identity) is the
arena index. -/

/-- A Python dict key as used around `self._tasks`: either the bare string
`task_name` or the tuple `(course, task_name)`. -/
inductive PyKey where
  | str : String → PyKey
  | pair : String → String → PyKey
deriving DecidableEq, Repr

/-- An allocated `AnytaskTask` object. -/
structure TaskEntity where
  course : String
  title : String
  name : String
deriving DecidableEq, Repr

/-- An `AnytaskSVN` object: `path` is stripped at construction and may be
`None`; review id and revision are the `str(...)` of the raw fields. -/
structure SVNInfo where
  path : Option String
  review_id : String
  revision : String
deriving DecidableEq, Repr

/-- An `AnytaskSolution` as built by `_parse`: the arena index of the task
entity it references, the (relocated) account of its student entity, and the
optional SVN info. -/
structure SolRec where
  taskIdx : Nat
  student : String
  svn : Option SVNInfo
deriving DecidableEq, Repr

/-- The mutable state of `_parse`: the tuple-keyed task dict (values are arena
indices), the arena of allocated task entities, the student dict
(account → first-seen display name) and the solutions list. -/
structure ParseSt where
  tasksDict : List (PyKey × Nat)
  arena : List TaskEntity
  studentsDict : List (String × String)
  solutions : List SolRec
deriving DecidableEq, Repr

/-- `Anytask._relocate`: apply the RELOCS store, identity when absent. -/
def relocate (relocs : List (String × String)) (u : String) : String :=
  match alookup relocs u with
  | none => u
  | some r => r

/-- The student loop body of `_parse`: drop the record when `user_name` or
`username` is missing; otherwise create the student entity on first sight of
the (relocated) account and append a solution whose SVN info is present only
when the `svn` key holds a non-null dict with all three fields. -/
def processStudentA (relocs : List (String × String)) (tidx : Nat)
    (sd : List (String × String)) (s : RawStudentA) :
    Option (List (String × String) × SolRec) :=
  match s.user_name with
  | none => none
  | some full =>
    match s.username with
    | none => none
    | some u0 =>
      let u := relocate relocs u0
      let sd' := match alookup sd u with
                 | none => upsert sd u full
                 | some _ => sd
      let svnInfo : Option SVNInfo :=
        match s.svn with
        | some (some d) =>
          match d.svn_path, d.rb_review_id, d.svn_rev with
          | some p, some ri, some rv => some ⟨p.map pyStrip, ri, rv⟩
          | _, _, _ => none
        | _ => none
      some (sd', ⟨tidx, u, svnInfo⟩)

/-- The task loop body of `_parse`: skip a task without id or title; look the
qualified name up in the prebuilt name map (an absent id is an uncaught
`KeyError`); run the literal membership test `task_name not in self._tasks`
before allocating; then process the task's students. -/
def processTaskA (relocs : List (String × String))
    (taskNames : List (Nat × String)) (course : String)
    (st : ParseSt) (t : RawTaskA) : Except PyErr ParseSt :=
  match t.task_id with
  | none => .ok st
  | some tid =>
    match t.title with
    | none => .ok st
    | some title0 =>
      match alookup taskNames tid with
      | none => .error .keyError
      | some name =>
        let absent := alookup st.tasksDict (PyKey.str name) = none
        let dict := if absent
          then upsert st.tasksDict (PyKey.pair course name) st.arena.length
          else st.tasksDict
        let arena := if absent
          then st.arena ++ [⟨course, pyStrip title0, name⟩]
          else st.arena
        match alookup dict (PyKey.pair course name) with
        | none => .error .keyError
        | some tidx =>
          match t.students with
          | none =>
            .ok { st with tasksDict := dict, arena := arena }
          | some ss =>
            let folded := ss.foldl
              (fun acc s =>
                match processStudentA relocs tidx acc.1 s with
                | none => acc
                | some r => (r.1, acc.2 ++ [r.2]))
              (st.studentsDict, st.solutions)
            .ok { tasksDict := dict, arena := arena,
                  studentsDict := folded.1, solutions := folded.2 }

/-- `Anytask._parse`: build the name map, then fold the task loop over every
course (a course without a `tasks` key is skipped with an error log). -/
def parseCourses (fuel : Nat) (relocs : List (String × String))
    (courses : List (String × Option (List RawTaskA))) : Except PyErr ParseSt :=
  match load_tasks fuel courses with
  | .error e => .error e
  | .ok names =>
    courses.foldlM
      (fun st ci =>
        match ci.2 with
        | none => .ok st
        | some ts => ts.foldlM (processTaskA relocs names ci.1) st)
      ⟨[], [], [], []⟩

/-- Course input for C8: two root tasks whose titles `"a"` and `"a "` both
trim to `"a"`, so both records produce the qualified name `"a"` under course
`"c"`; each has one student. -/
def dupNameCourses : List (String × Option (List RawTaskA)) :=
  [("c", some
    [⟨some 1, some none, some "a",
      some [⟨some "Ann", some "ann", none⟩]⟩,
     ⟨some 2, some none, some "a ",
      some [⟨some "Bob", some "bob", none⟩]⟩])]

/-- Claim C8 (code bug): the membership test `task_name not in self._tasks`
compares the bare string against tuple keys, so it never succeeds and every
record allocates a fresh `AnytaskTask`.  On two records with the same
`(course, qualified name)` the build allocates two distinct entities (arena
indices 0 and 1) and the two solutions reference different entities, refuting
the one-to-one invariant. -/
theorem c8_duplicate_name_two_entities :
    parseCourses 5 [] dupNameCourses =
      .ok { tasksDict := [(PyKey.pair "c" "a", 1)],
            arena := [⟨"c", "a", "a"⟩, ⟨"c", "a", "a"⟩],
            studentsDict := [("ann", "Ann"), ("bob", "Bob")],
            solutions := [⟨0, "ann", none⟩, ⟨1, "bob", none⟩] } ∧
    (⟨0, "ann", none⟩ : SolRec).taskIdx ≠ (⟨1, "bob", none⟩ : SolRec).taskIdx := by
  constructor
  · rfl
  · decide

/-! ## The anytask.py validator (`_AnytaskParser._filter_students`) -/

/-- The `svn` value of a raw student record in the anytask.py validator:
key absent, present but falsy (`None`, `{}`, …), or a truthy dict whose
`svn_path` / `svn_rev` keys may each be absent. -/
inductive RawSvnT where
  | absent : RawSvnT
  | falsy : RawSvnT
  | block : Option String → Option String → RawSvnT
deriving DecidableEq, Repr

/-- A raw student record as seen by `_filter_students`: key presence is
explicit, and for `score` the Python truthiness of the present value is
recorded. -/
structure RawStudentT where
  username : Option String
  user_name : Option String
  score : Option Bool
  svn : RawSvnT
deriving DecidableEq, Repr

/-- The validated `svn` sub-record: a missing `svn_path` defaults to `""`,
a missing `svn_rev` defaults to `None`. -/
structure FilteredSvnT where
  path : String
  rev : Option String
deriving DecidableEq, Repr

/-- A validated student record produced by `_filter_students`. -/
structure FilteredStudentT where
  account : String
  name : String
  svn : Option FilteredSvnT
deriving DecidableEq, Repr

/-- `_AnytaskParser._filter_students`: `none` means the record is dropped from
the task.  The checks run in source order: account, display name, score
presence, score truthiness, `svn` key presence (absent ⇒ dropped), `svn` value
truthiness (falsy ⇒ kept with no submission), field defaulting. -/
def filter_students (s : RawStudentT) : Option FilteredStudentT :=
  match s.username with
  | none => none
  | some acc =>
    match s.user_name with
    | none => none
    | some nm =>
      match s.score with
      | none => none
      | some sc =>
        if sc = false then none
        else
          match s.svn with
          | .absent => none
          | .falsy => some ⟨acc, nm, none⟩
          | .block p r => some ⟨acc, nm, some ⟨p.getD "", r⟩⟩

/-- Counterexample to claim C9 as frozen: a structurally valid student (account
and display name present, scored) whose VCS block is *absent* is dropped by
`_AnytaskParser._filter_students` (result `none`), not kept marked
"no submission". -/
theorem c9_counterexample :
    filter_students ⟨some "u", some "n", some true, RawSvnT.absent⟩ = none := by
  decide

/-- Claim C9 (amended): a structurally valid student record with an absent or
empty VCS block is kept and marked "no submission" by the anysync.py model
builder (`Anytask._parse` appends a solution with `svn = None` when the `svn`
key is absent or null); in the anytask.py validator
(`_AnytaskParser._filter_students`, for a record that also passes its score
checks) only a present-but-falsy VCS value is kept marked "no submission",
while an absent `svn` key drops the student from the task. -/
theorem c9_no_submission_kept
    (relocs : List (String × String)) (tidx : Nat)
    (sd : List (String × String)) (s : RawStudentA) (full u : String)
    (hn : s.user_name = some full) (hu : s.username = some u)
    (hsvn : s.svn = none ∨ s.svn = some none)
    (t : RawStudentT) (acc nm : String)
    (ha : t.username = some acc) (hm : t.user_name = some nm)
    (hsc : t.score = some true) :
    (∃ sd', processStudentA relocs tidx sd s =
        some (sd', ⟨tidx, relocate relocs u, none⟩)) ∧
    (t.svn = RawSvnT.falsy → filter_students t = some ⟨acc, nm, none⟩) ∧
    (t.svn = RawSvnT.absent → filter_students t = none) := by
  refine ⟨?_, ?_, ?_⟩
  · refine ⟨match alookup sd (relocate relocs u) with
            | none => upsert sd (relocate relocs u) full
            | some _ => sd, ?_⟩
    rcases hsvn with h | h <;> simp [processStudentA, hn, hu, h]
  · intro h; simp [filter_students, ha, hm, hsc, h]
  · intro h; simp [filter_students, ha, hm, hsc, h]

/-- Witness for C9 at concrete records. -/
theorem c9_no_submission_kept_witness :
    (∃ sd', processStudentA [] 0 [] ⟨some "Ann", some "ann", none⟩ =
        some (sd', ⟨0, relocate [] "ann", none⟩)) ∧
    (RawSvnT.falsy = RawSvnT.falsy →
      filter_students ⟨some "u", some "n", some true, RawSvnT.falsy⟩ =
        some ⟨"u", "n", none⟩) ∧
    (RawSvnT.falsy = RawSvnT.absent →
      filter_students ⟨some "u", some "n", some true, RawSvnT.falsy⟩ = none) :=
  c9_no_submission_kept [] 0 [] ⟨some "Ann", some "ann", none⟩ "Ann" "ann"
    rfl rfl (Or.inl rfl) ⟨some "u", some "n", some true, RawSvnT.falsy⟩ "u" "n"
    rfl rfl rfl

/-! ## Synchronizer (anysync.py, `AnytaskSynchronizer`)

`_sync_solution` is driven by the solution's SVN info, the RB_LINKS store and
the per-run `self._forced` set.  Filesystem, subprocess and console effects
are supplied by oracles: `mkdirOk` for `_make_destination`, `downloadOk` for
the `svn checkout` exit status, and `ask` for the interactive
`_ask_add_link` collaborator (`some path` = a link was chosen and stored,
`none` = cancelled or failed).  The recursive re-check
`self._sync_solution(solution, args)` is rendered by a `StepRes.recheck`
signal consumed by the fuel-indexed `syncSolution`. -/

/-- The solution view consumed by the synchronizer: task and student fields of
the referenced entities plus the optional SVN info. -/
structure SolM where
  courseId : String
  taskName : String
  taskTitle : String
  studentName : String
  studentRepo : String
  svn : Option SVNInfo
deriving DecidableEq, Repr

/-- The configuration fields the synchronizer reads. -/
structure Cfg where
  courseName : String
  unsortedName : String
deriving DecidableEq, Repr

/-- The command-line flags consulted by `_sync_solution`. -/
structure ArgsM where
  force : Bool
  askLink : Bool
  removeLinks : Bool
  svnQuiet : Bool
deriving DecidableEq, Repr

/-- Effect oracles for the synchronizer. -/
structure SyncEnv where
  mkdirOk : String → Bool
  downloadOk : String → String → Bool
  ask : String → Option String

/-- Per-run mutable state: the `self._forced` account set and the persistent
RB_LINKS store (review id → path). -/
structure SyncSt where
  forced : List String
  links : List (String × String)
deriving DecidableEq, Repr

/-- Observable events of one synchronization step. -/
inductive Ev where
  | checkout : String → String → Bool → Ev
  | skipNoSvn : Ev
  | skipNoPath : Ev
  | skipAlready : String → Ev
  | mkdirFail : Ev
deriving DecidableEq, Repr

/-- `AnytaskSynchronizer._make_destination`:
`course_name/(unsorted|task.name)/student.name`, created on demand; `none` on
an OS error. -/
def makeDest (cfg : Cfg) (env : SyncEnv) (sol : SolM) (forced : Bool) :
    Option String :=
  let p := posixJoin
    (posixJoin cfg.courseName (if forced then cfg.unsortedName else sol.taskName))
    sol.studentName
  if env.mkdirOk p then some p else none

/-- Result of one pass through the `_sync_solution` body: either finished, or
a recursive re-check was requested (after an interactive link add). -/
inductive StepRes where
  | done : SyncSt → List Ev → StepRes
  | recheck : SyncSt → List Ev → StepRes
deriving Repr

/-- The download tail of `_sync_solution`: run the checkout; on success with an
empty path and `--ask-link`, consult the prompt and request a re-check when a
link was added. -/
def stepDownload (env : SyncEnv) (args : ArgsM) (st : SyncSt) (svn : SVNInfo)
    (svnpath dest : String) : StepRes :=
  let ok := env.downloadOk svnpath dest
  if ok = true ∧ svnpath = "" ∧ args.askLink = true then
    match env.ask svn.review_id with
    | some ans =>
      StepRes.recheck { st with links := upsert st.links svn.review_id ans }
        [Ev.checkout svnpath dest ok]
    | none => StepRes.done st [Ev.checkout svnpath dest ok]
  else StepRes.done st [Ev.checkout svnpath dest ok]

/-- One pass through the `_sync_solution` body (anysync.py lines 441-500),
without the recursive calls. -/
def syncStep (cfg : Cfg) (env : SyncEnv) (args : ArgsM) (st : SyncSt)
    (sol : SolM) : StepRes :=
  match sol.svn with
  | none => StepRes.done st [Ev.skipNoSvn]
  | some svn =>
    if svn.path = none ∨ svn.path = some "" then
      match alookup st.links svn.review_id with
      | none =>
        if args.force = true then
          if sol.studentRepo ∈ st.forced then
            if args.askLink = true then
              match env.ask svn.review_id with
              | some ans =>
                StepRes.recheck
                  { st with links := upsert st.links svn.review_id ans }
                  [Ev.skipAlready sol.studentRepo]
              | none => StepRes.done st [Ev.skipAlready sol.studentRepo]
            else StepRes.done st [Ev.skipAlready sol.studentRepo]
          else
            match makeDest cfg env sol true with
            | none => StepRes.done st [Ev.mkdirFail]
            | some dest =>
              stepDownload env args
                { st with forced := sol.studentRepo :: st.forced } svn "" dest
        else StepRes.done st [Ev.skipNoPath]
      | some linked =>
        match makeDest cfg env sol false with
        | none => StepRes.done st [Ev.mkdirFail]
        | some dest => stepDownload env args st svn linked dest
    else
      let p := svn.path.getD ""
      let st' :=
        if (alookup st.links svn.review_id).isSome ∧ args.removeLinks = true then
          { st with links := removeKey st.links svn.review_id }
        else st
      match makeDest cfg env sol false with
      | none => StepRes.done st' [Ev.mkdirFail]
      | some dest => stepDownload env args st' svn p dest

/-- `AnytaskSynchronizer._sync_solution` with the recursion budget made
explicit (each recursive re-check consumes one unit of fuel). -/
def syncSolution (cfg : Cfg) (env : SyncEnv) (args : ArgsM) :
    Nat → SyncSt → SolM → SyncSt × List Ev
  | 0, st, _ => (st, [])
  | fuel + 1, st, sol =>
    match syncStep cfg env args st sol with
    | StepRes.done st' evs => (st', evs)
    | StepRes.recheck st' evs =>
      let r := syncSolution cfg env args fuel st' sol
      (r.1, evs ++ r.2)

/-- The loop of `AnytaskSynchronizer.synchronize`: solutions processed in
order, the run state threaded through. -/
def syncList (cfg : Cfg) (env : SyncEnv) (args : ArgsM) (fuel : Nat) :
    SyncSt → List SolM → SyncSt × List Ev
  | st, [] => (st, [])
  | st, sol :: rest =>
    let r := syncSolution cfg env args fuel st sol
    let r' := syncList cfg env args fuel r.1 rest
    (r'.1, r.2 ++ r'.2)

/-- The bulk (unsorted bucket) destination for a student's forced fetch. -/
def unsortedDest (cfg : Cfg) (studentName : String) : String :=
  posixJoin (posixJoin cfg.courseName cfg.unsortedName) studentName

/-- An unresolved submission of the student `(sname, srepo)` under the link
store `links0`: SVN info present, empty or null path, no stored link. -/
def Unresolved (links0 : List (String × String)) (sname srepo : String)
    (sol : SolM) : Prop :=
  sol.studentName = sname ∧ sol.studentRepo = srepo ∧
  ∃ svn, sol.svn = some svn ∧ (svn.path = none ∨ svn.path = some "") ∧
    alookup links0 svn.review_id = none

theorem syncStep_first (cfg : Cfg) (env : SyncEnv) (args : ArgsM)
    (links0 : List (String × String)) (sname srepo : String) (sol : SolM)
    (forced0 : List String)
    (hforce : args.force = true) (hask : args.askLink = false)
    (hsol : Unresolved links0 sname srepo sol) (hnf : srepo ∉ forced0)
    (hmk : env.mkdirOk (unsortedDest cfg sname) = true) :
    syncStep cfg env args ⟨forced0, links0⟩ sol =
      StepRes.done ⟨srepo :: forced0, links0⟩
        [Ev.checkout "" (unsortedDest cfg sname)
          (env.downloadOk "" (unsortedDest cfg sname))] := by
  obtain ⟨hn, hr, svn, hsvn, hpath, hfind⟩ := hsol
  subst hn hr
  have hmk' : env.mkdirOk
      (posixJoin (posixJoin cfg.courseName cfg.unsortedName) sol.studentName) = true := hmk
  have hdest : makeDest cfg env sol true = some (unsortedDest cfg sol.studentName) := by
    simp [makeDest, unsortedDest, hmk']
  simp only [syncStep, hsvn, hfind, hforce, hnf, hdest, stepDownload, hask]
  simp [hpath, hnf, hask]

theorem syncStep_already (cfg : Cfg) (env : SyncEnv) (args : ArgsM)
    (links0 : List (String × String)) (sname srepo : String) (sol : SolM)
    (st : SyncSt)
    (hforce : args.force = true) (hask : args.askLink = false)
    (hsol : Unresolved links0 sname srepo sol)
    (hlinks : st.links = links0) (hf : srepo ∈ st.forced) :
    syncStep cfg env args st sol = StepRes.done st [Ev.skipAlready srepo] := by
  obtain ⟨hn, hr, svn, hsvn, hpath, hfind⟩ := hsol
  subst hn hr
  rw [← hlinks] at hfind
  simp only [syncStep, hsvn, hfind, hforce, hask]
  simp [hpath, hf]

theorem syncList_already (cfg : Cfg) (env : SyncEnv) (args : ArgsM)
    (fuel : Nat) (links0 : List (String × String)) (sname srepo : String)
    (hforce : args.force = true) (hask : args.askLink = false) :
    ∀ (rest : List SolM) (st : SyncSt),
      (∀ sol ∈ rest, Unresolved links0 sname srepo sol) →
      st.links = links0 → srepo ∈ st.forced →
      syncList cfg env args (fuel + 1) st rest =
        (st, rest.map fun _ => Ev.skipAlready srepo) := by
  intro rest
  induction rest with
  | nil => intro st _ _ _; rfl
  | cons sol rest ih =>
    intro st hall hlinks hf
    have hstep := syncStep_already cfg env args links0 sname srepo sol st
      hforce hask (hall sol (by simp)) hlinks hf
    have hsolu : syncSolution cfg env args (fuel + 1) st sol =
        (st, [Ev.skipAlready srepo]) := by
      simp [syncSolution, hstep]
    simp only [syncList, hsolu]
    rw [ih st (fun s hs => hall s (by simp [hs])) hlinks hf]
    simp

/-- Claim C4: with force mode on (and no interactive link prompting), a run
over any nonempty list of unresolved submissions (empty or null path, no
stored link) that all belong to one student account performs exactly one
checkout — the first submission's, into the unsorted bucket — and every later
submission of that account is skipped as already bulk-fetched; the run starts
with an empty `self._forced` set as `AnytaskSynchronizer.__init__` does. -/
theorem c4_bulk_fetch_once (cfg : Cfg) (env : SyncEnv) (args : ArgsM)
    (fuel : Nat) (links0 : List (String × String)) (sname srepo : String)
    (first : SolM) (rest : List SolM)
    (hforce : args.force = true) (hask : args.askLink = false)
    (hall : ∀ sol ∈ first :: rest, Unresolved links0 sname srepo sol)
    (hmk : env.mkdirOk (unsortedDest cfg sname) = true) :
    (syncList cfg env args (fuel + 1) ⟨[], links0⟩ (first :: rest)).2 =
      Ev.checkout "" (unsortedDest cfg sname)
          (env.downloadOk "" (unsortedDest cfg sname)) ::
        rest.map (fun _ => Ev.skipAlready srepo) := by
  have hstep := syncStep_first cfg env args links0 sname srepo first []
    hforce hask (hall first (by simp)) (by simp) hmk
  have hsolu : syncSolution cfg env args (fuel + 1) ⟨[], links0⟩ first =
      (⟨[srepo], links0⟩,
       [Ev.checkout "" (unsortedDest cfg sname)
         (env.downloadOk "" (unsortedDest cfg sname))]) := by
    simp [syncSolution, hstep]
  simp only [syncList, hsolu]
  rw [syncList_already cfg env args fuel links0 sname srepo hforce hask rest
    ⟨[srepo], links0⟩ (fun s hs => hall s (by simp [hs])) rfl (by simp)]
  simp

/-- Concrete input for the C4 witness. -/
def cfgW : Cfg := ⟨"C", "unsorted"⟩

/-- Oracles for the C4 witness: every mkdir and checkout succeeds, the prompt
is never consulted. -/
def envW : SyncEnv := ⟨fun _ => true, fun _ _ => true, fun _ => none⟩

/-- Flags for the C4 witness: `--force` only. -/
def argsW : ArgsM := ⟨true, false, false, false⟩

/-- Two unresolved submissions by the same account for the C4 witness. -/
def solW1 : SolM := ⟨"1", "hw1", "HW 1", "Ann", "ann", some ⟨some "", "7", "42"⟩⟩

/-- Second unresolved submission (null path) of the same account. -/
def solW2 : SolM := ⟨"1", "hw2", "HW 2", "Ann", "ann", some ⟨none, "8", "43"⟩⟩

/-- Witness for C4 at a concrete two-submission run. -/
theorem c4_bulk_fetch_once_witness :
    (syncList cfgW envW argsW 1 ⟨[], []⟩ [solW1, solW2]).2 =
      Ev.checkout "" (unsortedDest cfgW "Ann")
          (envW.downloadOk "" (unsortedDest cfgW "Ann")) ::
        [solW2].map (fun _ => Ev.skipAlready "ann") := by
  refine c4_bulk_fetch_once cfgW envW argsW 0 [] "Ann" "ann" solW1 [solW2]
    rfl rfl ?_ rfl
  intro sol hs
  simp only [List.mem_cons, List.not_mem_nil, or_false] at hs
  rcases hs with rfl | rfl
  · exact ⟨rfl, rfl, ⟨some "", "7", "42"⟩, rfl, Or.inr rfl, rfl⟩
  · exact ⟨rfl, rfl, ⟨none, "8", "43"⟩, rfl, Or.inl rfl, rfl⟩

/-! ## Selection filter (anysync.py, `AnytaskSynchronizer._filter_solutions`) -/

/-- The helper `selected(selector, *values)`: `selector is None` admits,
otherwise the intersection of the value set with the selector set must be
nonempty. -/
def selected (selector : Option (List String)) (values : List String) : Bool :=
  match selector with
  | none => true
  | some sel => values.any (fun v => sel.contains v)

/-- The three allow-lists of the CLI (`None` when the flag was not given). -/
structure FilterArgs where
  course : Option (List String)
  task : Option (List String)
  student : Option (List String)
deriving DecidableEq, Repr

/-- `AnytaskSynchronizer._filter_solutions`. -/
def filterSolutions (args : FilterArgs) (sols : List SolM) : List SolM :=
  sols.filter
    (fun sol =>
      selected args.course [sol.courseId] &&
      selected args.task [sol.taskName, sol.taskTitle] &&
      selected args.student [sol.studentName, sol.studentRepo])

theorem selected_eq_true_iff (selector : Option (List String))
    (values : List String) :
    selected selector values = true ↔
      selector = none ∨ ∃ l, selector = some l ∧ ∃ v ∈ values, v ∈ l := by
  cases selector with
  | none => simp [selected]
  | some l =>
    simp [selected, List.any_eq_true]

/-- A concrete submission for the C5 counterexample. -/
def solC5 : SolM := ⟨"1", "hw1", "HW 1", "Bea", "bea", none⟩

/-- Counterexample to claim C5 as frozen: an *empty* (but set) allow-list does
not admit everything — with `args.task = some []` the only submission is
excluded, because the intersection of its tagged values with the empty list is
empty and `selected` only short-circuits on `None`. -/
theorem c5_counterexample :
    filterSolutions ⟨none, some [], none⟩ [solC5] = [] ∧
    ([] : List SolM) ≠ [solC5] := by
  constructor
  · rfl
  · decide

/-- Claim C5 (amended): a submission participates in the run iff all three
dimensions admit it, where an *unset* (`None`) allow-list admits everything
and a *set* allow-list admits the submission iff one of the submission's
tagged values for that dimension belongs to it — so a set-but-empty allow-list
admits nothing (such a value cannot arise from the CLI, whose append-action
flags leave an unused list `None`). -/
theorem c5_filter_membership (args : FilterArgs) (sols : List SolM) (sol : SolM) :
    sol ∈ filterSolutions args sols ↔
      sol ∈ sols ∧
      (args.course = none ∨
        ∃ l, args.course = some l ∧ ∃ v ∈ [sol.courseId], v ∈ l) ∧
      (args.task = none ∨
        ∃ l, args.task = some l ∧ ∃ v ∈ [sol.taskName, sol.taskTitle], v ∈ l) ∧
      (args.student = none ∨
        ∃ l, args.student = some l ∧ ∃ v ∈ [sol.studentName, sol.studentRepo], v ∈ l) := by
  simp only [filterSolutions, List.mem_filter, Bool.and_eq_true,
    selected_eq_true_iff]
  tauto

/-- Witness for C5 at a concrete run: a matching course filter and an unset
task/student filter admit the single submission. -/
theorem c5_filter_membership_witness :
    solC5 ∈ filterSolutions ⟨some ["1"], none, none⟩ [solC5] ↔
      solC5 ∈ [solC5] ∧
      ((some ["1"] : Option (List String)) = none ∨
        ∃ l, (some ["1"] : Option (List String)) = some l ∧
          ∃ v ∈ [solC5.courseId], v ∈ l) ∧
      ((none : Option (List String)) = none ∨
        ∃ l, (none : Option (List String)) = some l ∧
          ∃ v ∈ [solC5.taskName, solC5.taskTitle], v ∈ l) ∧
      ((none : Option (List String)) = none ∨
        ∃ l, (none : Option (List String)) = some l ∧
          ∃ v ∈ [solC5.studentName, solC5.studentRepo], v ∈ l) :=
  c5_filter_membership ⟨some ["1"], none, none⟩ [solC5] solC5

/-! ## Update checker (anysync.py, `AnytaskSynchronizer._is_updated`)

The destination is `course_name/task.name/student.name`.  When it does not
exist, the result is `solution.svn is None`.  Otherwise `svn info --xml` is
inspected: a non-zero exit, unparsable output, no `entry` element or a missing
`revision` attribute each yield `False`; otherwise the revision attribute is
compared with `solution.svn.revision` — an expression that raises
`AttributeError` when `solution.svn` is `None`. -/

/-- Outcome of the `svn info --xml` inspection, as far as `_is_updated`
consumes it: subprocess failure, unparsable XML, or the list of `entry`
elements, each carrying its optional `revision` attribute. -/
inductive Inspect where
  | procError : Inspect
  | badXml : Inspect
  | entries : List (Option String) → Inspect
deriving DecidableEq, Repr

/-- Oracles for the update checker: directory existence and the inspection
result per path. -/
structure UpdEnv where
  isdir : String → Bool
  inspect : String → Inspect

/-- The working-copy path `_is_updated` inspects. -/
def updPath (cfg : Cfg) (sol : SolM) : String :=
  posixJoin (posixJoin cfg.courseName sol.taskName) sol.studentName

/-- `AnytaskSynchronizer._is_updated`; `.error .attributeError` renders the
uncaught `AttributeError` of `solution.svn.revision` when `solution.svn` is
`None`. -/
def is_updated (cfg : Cfg) (env : UpdEnv) (sol : SolM) : Except PyErr Bool :=
  let path := updPath cfg sol
  if env.isdir path = true then
    match env.inspect path with
    | .procError => .ok false
    | .badXml => .ok false
    | .entries [] => .ok false
    | .entries (none :: _) => .ok false
    | .entries (some v :: _) =>
      match sol.svn with
      | none => .error .attributeError
      | some svn => .ok (v = svn.revision)
  else .ok sol.svn.isNone

/-- Claim C7: for a submission with a location, the update check returns
"needs update" (`ok false`) while the destination directory does not exist;
when it exists, the check returns `ok true` iff the inspection produced a
first entry whose revision attribute equals the submission's expected
revision, and every failure of the inspection (non-zero exit, unparsable
output, no entry, missing revision attribute) yields `ok false`, never
"up to date". -/
theorem c7_update_check (cfg : Cfg) (env : UpdEnv) (sol : SolM) (svn : SVNInfo)
    (hs : sol.svn = some svn) :
    (env.isdir (updPath cfg sol) = false → is_updated cfg env sol = .ok false) ∧
    (env.isdir (updPath cfg sol) = true →
      (is_updated cfg env sol = .ok true ↔
        ∃ es, env.inspect (updPath cfg sol) =
          Inspect.entries (some svn.revision :: es))) ∧
    (env.isdir (updPath cfg sol) = true →
      (env.inspect (updPath cfg sol) = Inspect.procError ∨
       env.inspect (updPath cfg sol) = Inspect.badXml ∨
       env.inspect (updPath cfg sol) = Inspect.entries [] ∨
       ∃ es, env.inspect (updPath cfg sol) = Inspect.entries (none :: es)) →
      is_updated cfg env sol = .ok false) := by
  refine ⟨?_, ?_, ?_⟩
  · intro hdir
    simp [is_updated, hdir, hs]
  · intro hdir
    simp only [is_updated, hdir, if_true]
    cases hins : env.inspect (updPath cfg sol) with
    | procError => simp
    | badXml => simp
    | entries es =>
      match es with
      | [] => simp
      | none :: rest => simp
      | some v :: rest => simp [hs]
  · intro hdir hfail
    simp only [is_updated, hdir, if_true]
    rcases hfail with h | h | h | ⟨es, h⟩ <;> simp [h]

/-- Environment for the C7 witness. -/
def updEnvW : UpdEnv := ⟨fun _ => true, fun _ => Inspect.entries [some "42"]⟩

/-- A located submission for the C7 witness. -/
def solC7 : SolM := ⟨"1", "hw1", "HW 1", "Cid", "cid", some ⟨some "p", "9", "42"⟩⟩

/-- Witness for C7 at a concrete environment where the working copy is at the
expected revision. -/
theorem c7_update_check_witness :
    (updEnvW.isdir (updPath cfgW solC7) = false →
      is_updated cfgW updEnvW solC7 = .ok false) ∧
    (updEnvW.isdir (updPath cfgW solC7) = true →
      (is_updated cfgW updEnvW solC7 = .ok true ↔
        ∃ es, updEnvW.inspect (updPath cfgW solC7) =
          Inspect.entries (some (⟨some "p", "9", "42"⟩ : SVNInfo).revision :: es))) ∧
    (updEnvW.isdir (updPath cfgW solC7) = true →
      (updEnvW.inspect (updPath cfgW solC7) = Inspect.procError ∨
       updEnvW.inspect (updPath cfgW solC7) = Inspect.badXml ∨
       updEnvW.inspect (updPath cfgW solC7) = Inspect.entries [] ∨
       ∃ es, updEnvW.inspect (updPath cfgW solC7) = Inspect.entries (none :: es)) →
      is_updated cfgW updEnvW solC7 = .ok false) :=
  c7_update_check cfgW updEnvW solC7 ⟨some "p", "9", "42"⟩ rfl

/-- Claim C10: for a solution without SVN info whose destination directory
exists and whose working-copy inspection succeeds with a revision attribute,
`_is_updated` does not return a boolean — the final comparison accesses
`.revision` on `None` and the embedded check yields the uncaught
`AttributeError`, so the update-only modes abort on such input. -/
theorem c10_none_svn_attribute_error (cfg : Cfg) (env : UpdEnv) (sol : SolM)
    (v : String) (es : List (Option String))
    (h0 : sol.svn = none)
    (h1 : env.isdir (updPath cfg sol) = true)
    (h2 : env.inspect (updPath cfg sol) = Inspect.entries (some v :: es)) :
    is_updated cfg env sol = .error .attributeError := by
  simp [is_updated, h1, h2, h0]

/-- A submission with no SVN info for the C10 witness. -/
def solC10 : SolM := ⟨"1", "hw1", "HW 1", "Dol", "dol", none⟩

/-- Witness for C10 at a concrete environment. -/
theorem c10_none_svn_attribute_error_witness :
    is_updated cfgW updEnvW solC10 = .error .attributeError :=
  c10_none_svn_attribute_error cfgW updEnvW solC10 "42" [] rfl rfl rfl

/-! ## Caching fetch orchestrator (C6)

Modelled from the spec: the caching variant of the Fetch Orchestrator
(spec section 4.5) is not part of the code under src — anysync.py's
`AnytaskSynchronizer._download` runs a plain `svn checkout` on every call and
persists nothing, and anytask.py contains only the parser half of the rewrite
whose synchronizer the spec describes.  The model follows the spec's words:
before fetching, a persisted revision marker next to the destination equal to
the target revision makes the invocation skip the external checkout entirely;
otherwise the external client is invoked once; the marker records the last
known target revision and its write happens on every invocation, even a
skipped one. -/

/-- Persistent markers: destination path → last known target revision. -/
structure FetchSt where
  markers : List (String × String)
deriving DecidableEq, Repr

/-- Result of one caching fetch: new marker state, reported success, and the
number of external checkout invocations performed (0 or 1). -/
structure FetchRes where
  st : FetchSt
  ok : Bool
  checkouts : Nat
deriving DecidableEq, Repr

/-- Modelled from the spec: one invocation of the caching fetch for target
revision `rev` of source `src` into `dest`; `checkoutOk` is the external VCS
client's exit status oracle. -/
def cachedFetch (checkoutOk : String → String → Bool) (st : FetchSt)
    (src dest rev : String) : FetchRes :=
  if alookup st.markers dest = some rev then
    { st := ⟨upsert st.markers dest rev⟩, ok := true, checkouts := 0 }
  else
    { st := ⟨upsert st.markers dest rev⟩, ok := checkoutOk src dest,
      checkouts := 1 }

/-- Claim C6 (spec-modelled): fetching the same submission twice with an
unchanged target revision performs the external checkout at most once — the
first invocation persists the target revision next to the destination, the
second finds the matching marker, performs zero checkouts and leaves the
marker correct. -/
theorem cachedFetch_skip (checkoutOk : String → String → Bool) (st : FetchSt)
    (src dest rev : String) (h : alookup st.markers dest = some rev) :
    cachedFetch checkoutOk st src dest rev =
      ⟨⟨upsert st.markers dest rev⟩, true, 0⟩ := by
  simp [cachedFetch, h]

theorem cachedFetch_marker (checkoutOk : String → String → Bool) (st : FetchSt)
    (src dest rev : String) :
    (cachedFetch checkoutOk st src dest rev).st.markers =
      upsert st.markers dest rev := by
  by_cases h : alookup st.markers dest = some rev <;> simp [cachedFetch, h]

theorem cachedFetch_le_one (checkoutOk : String → String → Bool) (st : FetchSt)
    (src dest rev : String) :
    (cachedFetch checkoutOk st src dest rev).checkouts ≤ 1 := by
  by_cases h : alookup st.markers dest = some rev <;> simp [cachedFetch, h]

theorem c6_fetch_idempotent (checkoutOk : String → String → Bool)
    (st : FetchSt) (src dest rev : String) :
    (cachedFetch checkoutOk
        (cachedFetch checkoutOk st src dest rev).st src dest rev).checkouts = 0 ∧
    (cachedFetch checkoutOk st src dest rev).checkouts +
      (cachedFetch checkoutOk
        (cachedFetch checkoutOk st src dest rev).st src dest rev).checkouts ≤ 1 ∧
    alookup (cachedFetch checkoutOk
        (cachedFetch checkoutOk st src dest rev).st src dest rev).st.markers
      dest = some rev := by
  have hsecond : alookup (cachedFetch checkoutOk st src dest rev).st.markers dest =
      some rev := by
    rw [cachedFetch_marker]; exact alookup_upsert st.markers dest rev
  rw [cachedFetch_skip checkoutOk _ src dest rev hsecond]
  exact ⟨rfl,
    by simpa using cachedFetch_le_one checkoutOk st src dest rev,
    alookup_upsert _ dest rev⟩

/-- Witness for C6 at a concrete state and oracle. -/
theorem c6_fetch_idempotent_witness :
    (cachedFetch (fun _ _ => true)
        (cachedFetch (fun _ _ => true) ⟨[]⟩ "src" "dst" "7").st
        "src" "dst" "7").checkouts = 0 ∧
    (cachedFetch (fun _ _ => true) ⟨[]⟩ "src" "dst" "7").checkouts +
      (cachedFetch (fun _ _ => true)
        (cachedFetch (fun _ _ => true) ⟨[]⟩ "src" "dst" "7").st
        "src" "dst" "7").checkouts ≤ 1 ∧
    alookup (cachedFetch (fun _ _ => true)
        (cachedFetch (fun _ _ => true) ⟨[]⟩ "src" "dst" "7").st
        "src" "dst" "7").st.markers "dst" = some "7" :=
  c6_fetch_idempotent (fun _ _ => true) ⟨[]⟩ "src" "dst" "7"

end Anysync
